import Mathlib

/-!
Shallow embedding of `storage.go` from vrischmann/caddy-tlsb2: a
caddytls.Storage backend over Backblaze B2. The embedding models the Go
source faithfully: byte slices become lists of naturals, the B2 client
becomes explicit oracles for its outcomes, and Go panics become a
distinguished constructor of the result type.
-/

/-- Byte slices (`[]byte`) are modelled as lists of naturals. -/
abbrev Bytes := List Nat

/-- Result of running a Go function body that may panic. -/
inductive GoResult (α : Type) where
  | ok : α → GoResult α
  | panicked : String → GoResult α
  deriving Repr, DecidableEq

/-- Go error values as they appear in this package: a b2 (object-store)
error with its rendered text, a plain error (from `errors.New` or the JSON
decoder) with its message, or the package's own `Error{op, err}` wrapper. -/
inductive ErrVal where
  | b2 : String → ErrVal
  | str : String → ErrVal
  | wrap : String → ErrVal → ErrVal
  deriving Repr, DecidableEq

/-- `b2.UnwrapError(err)`: succeeds exactly when the error is a b2 error,
returning its payload. -/
def b2UnwrapError : ErrVal → Option String
  | .b2 s => some s
  | _ => none

/-- Rendering of an error as by Go `%v`. For the package's `Error` type this
is the body of `(*Error).Error()`: if `b2.UnwrapError` succeeds on the cause
the message is `op:<op> b2:<cause>`, otherwise `op:<op> err:<cause>`. -/
def errString : ErrVal → String
  | .b2 s => s
  | .str s => s
  | .wrap op e =>
    match b2UnwrapError e with
    | some v => "op:" ++ op ++ " b2:" ++ v
    | none => "op:" ++ op ++ " err:" ++ errString e

/-- `storageMetadata`: the index document mapping domain names and users to
file ids. Go maps are modelled as association lists. -/
structure storageMetadata where
  domainNames : List (String × String)
  users : List (String × String)
  deriving Repr, DecidableEq

/-- The `b2Storage` adapter state. The `client` field of the Go struct is
modelled separately as oracles for the client's outcomes; the mutex `mdMu`
serializes the bodies below, which the sequential embedding reflects by
running them atomically. -/
structure b2Storage where
  bucketName : String
  md : storageMetadata
  mdLoaded : Bool
  deriving Repr, DecidableEq

/-- `caddytls.SiteData`. -/
structure SiteData where
  cert : Bytes
  key : Bytes
  meta : Bytes
  deriving Repr, DecidableEq

/-- `caddytls.UserData`. -/
structure UserData where
  reg : Bytes
  key : Bytes
  deriving Repr, DecidableEq

/-- The root path segment, Go variable `prefix` (default `"caddytls"`). -/
def pathRoot : String := "caddytls"

/-- `mkpath`: joins the root segment with a path (`filepath.Join` on two
simple nonempty components). -/
def mkpath (path : String) : String := pathRoot ++ "/" ++ path

/-- Outcome of `b2.NewClient`: fails with an error or yields a client. -/
inductive ClientOutcome where
  | failure : ErrVal → ClientOutcome
  | success : ClientOutcome
  deriving Repr, DecidableEq

/-- The three environment variables read by `NewB2Storage`. `os.Getenv`
returns `""` for an absent variable, so absence and emptiness coincide. -/
structure Env where
  b2AccountID : String
  b2AccountKey : String
  b2Bucket : String
  deriving Repr, DecidableEq

/-- Result of `NewB2Storage` together with whether `b2.NewClient` (the only
network-touching step) was reached. -/
structure NewB2StorageEffect where
  result : Except ErrVal b2Storage
  clientConstructed : Bool
  deriving Repr

/-- `NewB2Storage`: reads the three environment variables, failing fast with
a plain configuration error if any is empty, then constructs the b2 client
and the adapter. A fresh adapter has Go zero values: empty metadata and
`mdLoaded = false`. -/
def NewB2Storage (env : Env) (newClient : ClientOutcome) : NewB2StorageEffect :=
  if env.b2AccountID = "" then
    ⟨.error (.str "no account ID set, please set $B2_ACCOUNT_ID with either your master account ID or an application key ID"), false⟩
  else if env.b2AccountKey = "" then
    ⟨.error (.str "no account key set, please set $B2_ACCOUNT_KEY with either your master account key or an application key"), false⟩
  else if env.b2Bucket = "" then
    ⟨.error (.str "no bucket set, please set $B2_BUCKET"), false⟩
  else
    match newClient with
    | .failure e => ⟨.error e, true⟩
    | .success => ⟨.ok { bucketName := env.b2Bucket, md := ⟨[], []⟩, mdLoaded := false }, true⟩

/-- What `DownloadFileByName` followed by JSON decoding can yield for the
index document: the download fails with an error; or it succeeds and the
body decodes to a `storageMetadata`; or it succeeds and the body is not
valid JSON, in which case the decoder fails with an error after having
possibly mutated the target (`leftover` is what it left in `s.md`). -/
inductive DownloadOutcome where
  | failure : ErrVal → DownloadOutcome
  | valid : storageMetadata → DownloadOutcome
  | corrupt : ErrVal → storageMetadata → DownloadOutcome
  deriving Repr, DecidableEq

/-- Result of `loadMetadata`: the returned error (`none` = nil), the
adapter state afterwards, and whether `DownloadFileByName` was called. -/
structure LoadEffect where
  result : Option ErrVal
  state : b2Storage
  downloaded : Bool
  deriving Repr, DecidableEq

/-- `loadMetadata`: under the mutex, returns nil at once if `mdLoaded` is
set; otherwise downloads `mkpath "metadata.json"`, wrapping a download
failure or a JSON decode failure in `Error{op: "loadMetadata"}`, and only
on a successful decode stores the index and sets `mdLoaded`. -/
def loadMetadata (store : DownloadOutcome) (s : b2Storage) : LoadEffect :=
  if s.mdLoaded then ⟨none, s, false⟩
  else
    match store with
    | .failure e => ⟨some (.wrap "loadMetadata" e), s, true⟩
    | .corrupt e leftover => ⟨some (.wrap "loadMetadata" e), { s with md := leftover }, true⟩
    | .valid m => ⟨none, { s with md := m, mdLoaded := true }, true⟩

/-- Outcome of `GetFileInfoByID` for a given file id. -/
inductive InfoOutcome where
  | failure : ErrVal → InfoOutcome
  | success : InfoOutcome
  deriving Repr, DecidableEq

/-- Result of `SiteExists`: the Go return pair `(bool, error)` (or a panic),
the adapter state afterwards, and whether the index document was
downloaded during the call. -/
structure SiteExistsEffect where
  result : GoResult (Bool × Option ErrVal)
  state : b2Storage
  downloaded : Bool
  deriving Repr, DecidableEq

/-- `SiteExists`: loads the metadata index (wrapping its failure in
`Error{op: "SiteExists"}`), answers `(false, nil)` when the domain has no
recorded file id, looks the file up by id otherwise — wrapping any lookup
failure in `Error{op: "SiteExists"}` — and on a successful lookup reaches
`panic("not implemented")`. -/
def SiteExists (store : DownloadOutcome) (info : String → InfoOutcome)
    (s : b2Storage) (domain : String) : SiteExistsEffect :=
  let le := loadMetadata store s
  match le.result with
  | some e => ⟨.ok (false, some (.wrap "SiteExists" e)), le.state, le.downloaded⟩
  | none =>
    match le.state.md.domainNames.lookup domain with
    | none => ⟨.ok (false, none), le.state, le.downloaded⟩
    | some fileID =>
      match info fileID with
      | .failure e => ⟨.ok (false, some (.wrap "SiteExists" e)), le.state, le.downloaded⟩
      | .success => ⟨.panicked "not implemented", le.state, le.downloaded⟩

/-- `LoadSite`: the body is `panic("not implemented")`. -/
def LoadSite (_domain : String) : GoResult (Option SiteData × Option ErrVal) :=
  .panicked "not implemented"

/-- `StoreSite`: the body is `panic("not implemented")`. -/
def StoreSite (_domain : String) (_data : SiteData) : GoResult (Option ErrVal) :=
  .panicked "not implemented"

/-- `DeleteSite`: the body is `panic("not implemented")`. -/
def DeleteSite (_domain : String) : GoResult (Option ErrVal) :=
  .panicked "not implemented"

/-- `LoadUser`: the body is `panic("not implemented")`. -/
def LoadUser (_email : String) : GoResult (Option UserData × Option ErrVal) :=
  .panicked "not implemented"

/-- `StoreUser`: the body is `panic("not implemented")`. -/
def StoreUser (_email : String) (_data : UserData) : GoResult (Option ErrVal) :=
  .panicked "not implemented"

/-- `MostRecentUserEmail`: the body is `panic("not implemented")`. -/
def MostRecentUserEmail : GoResult String :=
  .panicked "not implemented"

/-- `TryLock`: the body is `panic("not implemented")`. (`Waiter` is opaque
to the stub; the result type uses `Option Unit` for the waiter-or-nil.) -/
def TryLock (_name : String) : GoResult (Option Unit × Option ErrVal) :=
  .panicked "not implemented"

/-- `Unlock`: the body is `panic("not implemented")`. -/
def Unlock (_name : String) : GoResult (Option ErrVal) :=
  .panicked "not implemented"

/-- An error value carries an operation name together with an underlying
cause exactly when it is the package's `Error` wrapper. -/
def carriesOpAndCause : ErrVal → Bool
  | .wrap _ _ => true
  | _ => false

/-- Modelled from the spec: `UploadError` wrapping the last underlying
failure, returned when every upload attempt fails. (The `StoreSite` body in
`src/storage.go` is a `panic` stub; the upload retry loop the spec
describes is absent from the source, so it is modelled here from the
spec's words.) -/
structure UploadError where
  cause : ErrVal
  deriving Repr, DecidableEq

/-- Modelled from the spec: the fixed retry bound of 5 attempts. -/
def maxUploadTries : Nat := 5

/-- Modelled from the spec: the observable effect of the retrying upload —
its result, the number of attempts made, and the seconds slept (a fixed
one-second delay between consecutive attempts). -/
structure RetryEffect where
  result : Except UploadError Unit
  attemptsMade : Nat
  sleptSeconds : Nat
  deriving Repr

/-- Modelled from the spec: the retry loop of the store path. `outcomes i`
is the failure of the i-th upload attempt (`none` = success). Attempts run
in order from index `i` with the given number of tries remaining; the loop
returns on the first success, sleeps one second between attempts, and after
the final failed attempt returns an `UploadError` wrapping it. -/
def runUpload (outcomes : Nat → Option ErrVal) (i : Nat) : Nat → RetryEffect
  | 0 => ⟨.ok (), 0, 0⟩
  | 1 =>
    match outcomes i with
    | none => ⟨.ok (), 1, 0⟩
    | some e => ⟨.error ⟨e⟩, 1, 0⟩
  | n + 2 =>
    match outcomes i with
    | none => ⟨.ok (), 1, 0⟩
    | some _ =>
      let r := runUpload outcomes (i + 1) (n + 1)
      ⟨r.result, r.attemptsMade + 1, r.sleptSeconds + 1⟩

/-- Modelled from the spec: the upload performed by `StoreSite`, retried up
to `maxUploadTries` attempts. -/
def storeSiteUpload (outcomes : Nat → Option ErrVal) : RetryEffect :=
  runUpload outcomes 0 maxUploadTries

/-- Modelled from the spec: the Lock Table — process-local named locks. The
presence of an entry for a name means the name is locked; all waiters share
the entry's single release signal, so the waiter handle is modelled
abstractly as `Unit`. (The `TryLock` and `Unlock` bodies in
`src/storage.go` are `panic` stubs, so the lock table is modelled from the
spec's words.) -/
structure LockTable where
  entries : List String
  deriving Repr, DecidableEq

/-- Modelled from the spec: `TryLock(name)` — when no entry exists for the
name, create one and return a nil waiter, the caller now holding the lock;
when an entry exists, return its waiter handle without acquiring and leave
the table unchanged. -/
def LockTable.tryLock (t : LockTable) (name : String) : Option Unit × LockTable :=
  if t.entries.contains name then (some (), t)
  else (none, ⟨name :: t.entries⟩)

/-- Modelled from the spec: `Unlock(name)` — signal any waiter and remove
the entry; a no-op when no entry exists. -/
def LockTable.unlock (t : LockTable) (name : String) : LockTable :=
  ⟨t.entries.erase name⟩

/-! Helper equations evaluating the retry loop one attempt at a time. -/

theorem runUpload_five (outcomes : Nat → Option ErrVal) (i : Nat) :
    runUpload outcomes i 5 =
      match outcomes i with
      | none => ⟨.ok (), 1, 0⟩
      | some _ =>
        let r := runUpload outcomes (i + 1) 4
        ⟨r.result, r.attemptsMade + 1, r.sleptSeconds + 1⟩ := rfl

theorem runUpload_four (outcomes : Nat → Option ErrVal) (i : Nat) :
    runUpload outcomes i 4 =
      match outcomes i with
      | none => ⟨.ok (), 1, 0⟩
      | some _ =>
        let r := runUpload outcomes (i + 1) 3
        ⟨r.result, r.attemptsMade + 1, r.sleptSeconds + 1⟩ := rfl

theorem runUpload_three (outcomes : Nat → Option ErrVal) (i : Nat) :
    runUpload outcomes i 3 =
      match outcomes i with
      | none => ⟨.ok (), 1, 0⟩
      | some _ =>
        let r := runUpload outcomes (i + 1) 2
        ⟨r.result, r.attemptsMade + 1, r.sleptSeconds + 1⟩ := rfl

theorem runUpload_two (outcomes : Nat → Option ErrVal) (i : Nat) :
    runUpload outcomes i 2 =
      match outcomes i with
      | none => ⟨.ok (), 1, 0⟩
      | some _ =>
        let r := runUpload outcomes (i + 1) 1
        ⟨r.result, r.attemptsMade + 1, r.sleptSeconds + 1⟩ := rfl

theorem runUpload_one (outcomes : Nat → Option ErrVal) (i : Nat) :
    runUpload outcomes i 1 =
      match outcomes i with
      | none => ⟨.ok (), 1, 0⟩
      | some e => ⟨.error ⟨e⟩, 1, 0⟩ := rfl

/-! Claim theorems. -/

/-- C5: for every environment in which at least one of B2_ACCOUNT_ID,
B2_ACCOUNT_KEY, B2_BUCKET is absent or empty, `NewB2Storage` returns a
configuration error (a plain error message) without constructing the b2
client, hence before any network access. -/
theorem newB2Storage_missing_env_config_error (env : Env) (newClient : ClientOutcome)
    (h : env.b2AccountID = "" ∨ env.b2AccountKey = "" ∨ env.b2Bucket = "") :
    (∃ msg, (NewB2Storage env newClient).result = Except.error (ErrVal.str msg)) ∧
      (NewB2Storage env newClient).clientConstructed = false := by
  unfold NewB2Storage
  by_cases h1 : env.b2AccountID = ""
  · simp [h1]
  · by_cases h2 : env.b2AccountKey = ""
    · simp [h1, h2]
    · by_cases h3 : env.b2Bucket = ""
      · simp [h1, h2, h3]
      · exact absurd h (by simp [h1, h2, h3])

/-- Witness for C5 at a concrete environment with an empty account ID. -/
theorem newB2Storage_missing_env_config_error_witness :
    (∃ msg, (NewB2Storage ⟨"", "key", "bucket"⟩ .success).result = Except.error (ErrVal.str msg)) ∧
      (NewB2Storage ⟨"", "key", "bucket"⟩ .success).clientConstructed = false :=
  newB2Storage_missing_env_config_error ⟨"", "key", "bucket"⟩ .success (Or.inl rfl)

/-- C3: LoadSite, StoreSite, DeleteSite, LoadUser, StoreUser,
MostRecentUserEmail, TryLock, and Unlock panic with "not implemented" on
every input, and SiteExists panics on every execution in which the metadata
index is loaded, the domain has a recorded object id, and the by-id info
lookup succeeds. -/
theorem stubs_panic_not_implemented :
    (∀ d, LoadSite d = .panicked "not implemented") ∧
    (∀ d data, StoreSite d data = .panicked "not implemented") ∧
    (∀ d, DeleteSite d = .panicked "not implemented") ∧
    (∀ e, LoadUser e = .panicked "not implemented") ∧
    (∀ e data, StoreUser e data = .panicked "not implemented") ∧
    (MostRecentUserEmail = .panicked "not implemented") ∧
    (∀ n, TryLock n = .panicked "not implemented") ∧
    (∀ n, Unlock n = .panicked "not implemented") ∧
    (∀ store info s d fid, s.mdLoaded = true →
      s.md.domainNames.lookup d = some fid → info fid = .success →
      (SiteExists store info s d).result = .panicked "not implemented") := by
  refine ⟨fun _ => rfl, fun _ _ => rfl, fun _ => rfl, fun _ => rfl, fun _ _ => rfl,
    rfl, fun _ => rfl, fun _ => rfl, ?_⟩
  intro store info s d fid hl hk hi
  simp [SiteExists, loadMetadata, hl, hk, hi]

/-- Witness for C3 at a concrete loaded state whose index records the
domain and whose by-id lookup succeeds. -/
theorem stubs_panic_not_implemented_witness :
    (SiteExists (.failure (.b2 "x")) (fun _ => .success)
      ⟨"bucket", ⟨[("a.com", "fid1")], []⟩, true⟩ "a.com").result = .panicked "not implemented" :=
  stubs_panic_not_implemented.2.2.2.2.2.2.2.2 (.failure (.b2 "x")) (fun _ => .success)
    ⟨"bucket", ⟨[("a.com", "fid1")], []⟩, true⟩ "a.com" "fid1" rfl rfl rfl

/-- C1: contrary to the claim, when the index document is absent from the
object store (the download fails), `loadMetadata` does not initialize an
empty index and succeed: it returns an `Error` wrapping the download
failure. The second conjunct shows the half of the claim the code does
satisfy: a present-but-corrupt document yields an error wrapping the JSON
decode failure. -/
theorem loadMetadata_absent_doc_errors :
    (loadMetadata (.failure (.b2 "not_found: bucket/caddytls/metadata.json"))
        ⟨"bucket", ⟨[], []⟩, false⟩).result =
      some (.wrap "loadMetadata" (.b2 "not_found: bucket/caddytls/metadata.json")) ∧
    (loadMetadata (.corrupt (.str "invalid character") ⟨[], []⟩)
        ⟨"bucket", ⟨[], []⟩, false⟩).result =
      some (.wrap "loadMetadata" (.str "invalid character")) := ⟨rfl, rfl⟩

/-- C4: at the repository's own test input — domain "foobar.com" with
cert "cert", key "key", meta "meta" as bytes — `StoreSite` panics with
"not implemented" instead of storing, and `LoadSite` panics instead of
loading, so the store-then-load round trip cannot succeed. -/
theorem storeSite_loadSite_panic_on_test_input :
    StoreSite "foobar.com" ⟨[99, 101, 114, 116], [107, 101, 121], [109, 101, 116, 97]⟩ =
        .panicked "not implemented" ∧
      LoadSite "foobar.com" = .panicked "not implemented" := ⟨rfl, rfl⟩

/-- C2 counterexample: at a concrete input where the loaded index records
an object id for the domain and the object store answers "not found" for
that id, `SiteExists` does not return false with no error as the claim
states — it returns false together with an `Error` wrapping the not-found
failure. -/
theorem siteExists_notFound_counterexample :
    (SiteExists (.valid ⟨[("foobar.com", "fid1")], []⟩)
        (fun _ => .failure (.b2 "not_found: file fid1 does not exist"))
        ⟨"bucket", ⟨[], []⟩, false⟩ "foobar.com").result =
      .ok (false, some (.wrap "SiteExists" (.b2 "not_found: file fid1 does not exist"))) ∧
    (SiteExists (.valid ⟨[("foobar.com", "fid1")], []⟩)
        (fun _ => .failure (.b2 "not_found: file fid1 does not exist"))
        ⟨"bucket", ⟨[], []⟩, false⟩ "foobar.com").result ≠
      .ok (false, none) := ⟨rfl, by decide⟩

/-- C2 amended: for every domain whose object id is recorded in the loaded
metadata index, `SiteExists` looks the object up by that id, and every
failure of that lookup — a "not found" answer included — yields false
together with an `Error` wrapping the failure, never false with no
error. -/
theorem siteExists_lookup_failure_amended (store : DownloadOutcome)
    (info : String → InfoOutcome) (s : b2Storage) (domain fid : String) (e : ErrVal)
    (h1 : (loadMetadata store s).result = none)
    (h2 : (loadMetadata store s).state.md.domainNames.lookup domain = some fid)
    (h3 : info fid = .failure e) :
    (SiteExists store info s domain).result = .ok (false, some (.wrap "SiteExists" e)) := by
  unfold SiteExists
  simp [h1, h2, h3]

/-- Witness for the amended C2 at a concrete index, domain and not-found
lookup. -/
theorem siteExists_lookup_failure_amended_witness :
    (SiteExists (.valid ⟨[("a.com", "f7")], []⟩) (fun _ => .failure (.b2 "not_found"))
        ⟨"bucket", ⟨[], []⟩, false⟩ "a.com").result =
      .ok (false, some (.wrap "SiteExists" (.b2 "not_found"))) :=
  siteExists_lookup_failure_amended (.valid ⟨[("a.com", "f7")], []⟩)
    (fun _ => .failure (.b2 "not_found")) ⟨"bucket", ⟨[], []⟩, false⟩ "a.com" "f7"
    (.b2 "not_found") rfl rfl rfl

/-- C6: after any call of `loadMetadata` that returns success, every
subsequent call returns success without contacting the object store (no
download) and leaves the adapter state — the in-memory index included —
unchanged, so the index document is loaded at most once per adapter
instance. -/
theorem loadMetadata_idempotent (store store2 : DownloadOutcome) (s : b2Storage)
    (h : (loadMetadata store s).result = none) :
    loadMetadata store2 (loadMetadata store s).state =
      ⟨none, (loadMetadata store s).state, false⟩ := by
  unfold loadMetadata at h ⊢
  by_cases hl : s.mdLoaded
  · simp [hl]
  · cases store <;> simp [hl] at h ⊢

/-- Witness for C6: a successful first load from a fresh adapter, then a
second call in front of a failing store. -/
theorem loadMetadata_idempotent_witness :
    loadMetadata (.failure (.b2 "boom"))
        (loadMetadata (.valid ⟨[("a.com", "f1")], []⟩) ⟨"b", ⟨[], []⟩, false⟩).state =
      ⟨none, (loadMetadata (.valid ⟨[("a.com", "f1")], []⟩) ⟨"b", ⟨[], []⟩, false⟩).state,
        false⟩ :=
  loadMetadata_idempotent (.valid ⟨[("a.com", "f1")], []⟩) (.failure (.b2 "boom"))
    ⟨"b", ⟨[], []⟩, false⟩ rfl

/-- C10: when `loadMetadata` returns an error, the loaded flag of the
resulting state is still false, and a subsequent call attempts the download
again rather than returning a cached result — a failed attempt never marks
the index as loaded. -/
theorem loadMetadata_failure_not_cached (store : DownloadOutcome) (s : b2Storage)
    (e : ErrVal) (h : (loadMetadata store s).result = some e) :
    (loadMetadata store s).state.mdLoaded = false ∧
      ∀ store2, (loadMetadata store2 (loadMetadata store s).state).downloaded = true := by
  unfold loadMetadata at h ⊢
  by_cases hl : s.mdLoaded
  · simp [hl] at h
  · cases store <;> simp [hl] at h ⊢ <;>
      exact fun store2 => by cases store2 <;> rfl

/-- Witness for C10: a failed download on a fresh adapter leaves the flag
unset and a retry downloads again. -/
theorem loadMetadata_failure_not_cached_witness :
    (loadMetadata (.failure (.b2 "boom")) ⟨"b", ⟨[], []⟩, false⟩).state.mdLoaded = false ∧
      ∀ store2,
        (loadMetadata store2
          (loadMetadata (.failure (.b2 "boom")) ⟨"b", ⟨[], []⟩, false⟩).state).downloaded =
        true :=
  loadMetadata_failure_not_cached (.failure (.b2 "boom")) ⟨"b", ⟨[], []⟩, false⟩
    (.wrap "loadMetadata" (.b2 "boom")) rfl

/-- C9 counterexample: the configuration error produced by `NewB2Storage`
when the account ID is empty is a plain error message that carries no
operation name and no underlying cause, so not every error value produced
by the system carries the logical operation name together with the
original cause. -/
theorem config_error_carries_no_op :
    (NewB2Storage ⟨"", "", ""⟩ .success).result =
        Except.error (ErrVal.str "no account ID set, please set $B2_ACCOUNT_ID with either your master account ID or an application key ID") ∧
      carriesOpAndCause (ErrVal.str "no account ID set, please set $B2_ACCOUNT_ID with either your master account ID or an application key ID") =
        false := ⟨rfl, rfl⟩

/-- C9 amended: every error returned by the storage operations
(`loadMetadata` and `SiteExists`) is the package's `Error` wrapper carrying
the operation name together with the underlying cause, and the wrapper's
rendered message includes both — rendering the unwrapped object-store
error when the cause is one; configuration errors from `NewB2Storage`, by
contrast, are plain messages without an operation name. -/
theorem operation_errors_carry_op_and_cause :
    (∀ e0 s, s.mdLoaded = false →
      (loadMetadata (.failure e0) s).result = some (.wrap "loadMetadata" e0)) ∧
    (∀ e0 leftover s, s.mdLoaded = false →
      (loadMetadata (.corrupt e0 leftover) s).result = some (.wrap "loadMetadata" e0)) ∧
    (∀ store info s domain e, (loadMetadata store s).result = some e →
      (SiteExists store info s domain).result = .ok (false, some (.wrap "SiteExists" e))) ∧
    (∀ store info s domain fid e, (loadMetadata store s).result = none →
      (loadMetadata store s).state.md.domainNames.lookup domain = some fid →
      info fid = .failure e →
      (SiteExists store info s domain).result = .ok (false, some (.wrap "SiteExists" e))) ∧
    (∀ op cause v, b2UnwrapError cause = some v →
      errString (.wrap op cause) = "op:" ++ op ++ " b2:" ++ v) ∧
    (∀ op cause, b2UnwrapError cause = none →
      errString (.wrap op cause) = "op:" ++ op ++ " err:" ++ errString cause) := by
  refine ⟨?_, ?_, ?_, ?_, ?_, ?_⟩
  · intro e0 s hl
    simp [loadMetadata, hl]
  · intro e0 leftover s hl
    simp [loadMetadata, hl]
  · intro store info s domain e h
    simp [SiteExists, h]
  · intro store info s domain fid e h1 h2 h3
    simp [SiteExists, h1, h2, h3]
  · intro op cause v hv
    simp [errString, hv]
  · intro op cause hv
    simp [errString, hv]

/-- Witness for the amended C9: a failed download on a fresh adapter yields
exactly the wrapper naming the operation and carrying the cause. -/
theorem operation_errors_carry_op_and_cause_witness :
    (loadMetadata (.failure (.b2 "boom")) ⟨"b", ⟨[], []⟩, false⟩).result =
      some (.wrap "loadMetadata" (.b2 "boom")) :=
  operation_errors_carry_op_and_cause.1 (.b2 "boom") ⟨"b", ⟨[], []⟩, false⟩ rfl

/-- C7 (modelled from the spec, the source body being a stub): the retrying
upload makes at most 5 attempts with a fixed one-second delay between
consecutive attempts (seconds slept is one less than attempts made),
returns success as soon as any attempt succeeds, and returns an
`UploadError` wrapping the last (fifth) underlying failure exactly when all
5 attempts fail. -/
theorem storeSiteUpload_retry_spec (outcomes : Nat → Option ErrVal) :
    ((outcomes 0 = none ∨ outcomes 1 = none ∨ outcomes 2 = none ∨
        outcomes 3 = none ∨ outcomes 4 = none) →
      (storeSiteUpload outcomes).result = .ok ()) ∧
    (∀ e0 e1 e2 e3 e4, outcomes 0 = some e0 → outcomes 1 = some e1 →
      outcomes 2 = some e2 → outcomes 3 = some e3 → outcomes 4 = some e4 →
      (storeSiteUpload outcomes).result = .error ⟨e4⟩) ∧
    (storeSiteUpload outcomes).attemptsMade ≤ maxUploadTries ∧
    (storeSiteUpload outcomes).sleptSeconds + 1 = (storeSiteUpload outcomes).attemptsMade := by
  rcases h0 : outcomes 0 with _ | e0 <;>
  rcases h1 : outcomes 1 with _ | e1 <;>
  rcases h2 : outcomes 2 with _ | e2 <;>
  rcases h3 : outcomes 3 with _ | e3 <;>
  rcases h4 : outcomes 4 with _ | e4 <;>
    simp [storeSiteUpload, maxUploadTries, runUpload_five, runUpload_four,
      runUpload_three, runUpload_two, runUpload_one, h0, h1, h2, h3, h4]

/-- Witness for C7: when every attempt fails with the same failure, the
upload returns an `UploadError` wrapping the last one. -/
theorem storeSiteUpload_retry_spec_witness :
    (storeSiteUpload (fun _ => some (.b2 "upload failed"))).result =
      .error ⟨.b2 "upload failed"⟩ :=
  (storeSiteUpload_retry_spec (fun _ => some (.b2 "upload failed"))).2.1
    (.b2 "upload failed") (.b2 "upload failed") (.b2 "upload failed")
    (.b2 "upload failed") (.b2 "upload failed") rfl rfl rfl rfl rfl

/-- C8 (modelled from the spec, the source bodies being stubs): from a
table with no entry for a name, TryLock returns a nil waiter and creates
the entry; a second TryLock before Unlock returns a non-nil waiter and
does not acquire (the table is unchanged); Unlock removes the entry, after
which TryLock again returns a nil waiter. -/
theorem lockTable_state_machine (t : LockTable) (x : String)
    (h : x ∉ t.entries) :
    (t.tryLock x).1 = none ∧
    x ∈ (t.tryLock x).2.entries ∧
    ((t.tryLock x).2.tryLock x).1 = some () ∧
    ((t.tryLock x).2.tryLock x).2 = (t.tryLock x).2 ∧
    x ∉ ((t.tryLock x).2.unlock x).entries ∧
    (((t.tryLock x).2.unlock x).tryLock x).1 = none := by
  have h1 : t.tryLock x = (none, ⟨x :: t.entries⟩) := by
    simp [LockTable.tryLock, h]
  rw [h1]
  have h2 : LockTable.unlock ⟨x :: t.entries⟩ x = ⟨t.entries⟩ := by
    simp [LockTable.unlock, List.erase_cons_head]
  refine ⟨rfl, List.mem_cons_self x t.entries, ?_, ?_, ?_, ?_⟩
  · simp [LockTable.tryLock]
  · simp [LockTable.tryLock]
  · rw [h2]
    exact h
  · rw [h2]
    simp [LockTable.tryLock, h]

/-- Witness for C8: the lock state machine run from the empty table on the
name "x". -/
theorem lockTable_state_machine_witness :
    ((⟨[]⟩ : LockTable).tryLock "x").1 = none ∧
    ((((⟨[]⟩ : LockTable).tryLock "x").2.tryLock "x").1 = some ()) ∧
    (((((⟨[]⟩ : LockTable).tryLock "x").2.unlock "x").tryLock "x").1 = none) := by
  have h := lockTable_state_machine ⟨[]⟩ "x" (List.not_mem_nil "x")
  exact ⟨h.1, h.2.2.1, h.2.2.2.2.2⟩
